import Mathlib

/-!
Verification of the resilient orchestration pipeline of the youtube-scrapper
repository (scripts/youtube_orchestrator.py, scripts/youtube_channel_scraper.py,
scripts/youtube_channel_discovery.py).

The Python code is shallowly embedded: JSON checkpoint documents become
structures, Python dicts become association lists with insertion-order
semantics, the per-entity loop body of `run_scraping` becomes a step function
on an explicit state, and the browser is abstracted by an outcome oracle
(one `ScrapeOutcome` per loop index).  Observer fields (`browserRestarts`,
`scrapeInvocations`, `skippedExceptionIds`, `attemptedIndices`) count
externally visible events without influencing control flow.
-/

namespace YoutubeScrapper

/-- Failure record stored per identifier in the queue document's `failed` map
and in the global progress `failed_channels` map (`_record_channel_failure`).
The wall-clock `first_failed_at` timestamp is not modelled. -/
structure FailureRecord where
  attempts : Nat
  last_error : String
  deriving Repr, DecidableEq

/-- Queue checkpoint document, the four fields touched by the scraping loop
(and exactly the fields of the default document returned by `load_queue_file`).
Queue entries are modelled in their plain-string form (`channel_id` strings). -/
structure QueueData where
  channels : List String
  completed : List String
  failed : List (String × FailureRecord)
  current_index : Nat
  deriving Repr, DecidableEq

/-- Global scrape progress document (`load_progress` / `save_progress`),
restricted to the fields read or written by `run_scraping`. -/
structure Progress where
  completed_channels : List String
  failed_channels : List (String × FailureRecord)
  deriving Repr, DecidableEq

/-- The local `stats` dict of `run_scraping`. -/
structure Stats where
  success : Nat
  failed : Nat
  skipped : Nat
  deriving Repr, DecidableEq

/-- The `config` block of the orchestration state (tunables used by
`run_scraping` and `_calculate_cooldown`). -/
structure Config where
  max_channel_retries : Nat
  browser_restart_interval : Nat
  cooldown_after_failure : Nat
  cooldown_multiplier : Nat
  max_cooldown : Nat
  deriving Repr, DecidableEq

/-- The defaults of `OrchestrationState._create_initial_state`. -/
def defaultConfig : Config :=
  { max_channel_retries := 3
    browser_restart_interval := 50
    cooldown_after_failure := 60
    cooldown_multiplier := 2
    max_cooldown := 600 }

/-- Outcome of one `scraper.scrape_channel` call, as classified by the
`except` clauses of `run_scraping`: normal return, `ChannelSkippedException`,
`ChannelNotFoundException`, `RateLimitException`, or any other exception. -/
inductive ScrapeOutcome where
  | success
  | skippedExisting (msg : String)
  | notFound (msg : String)
  | rateLimited (msg : String)
  | transient (msg : String)
  deriving Repr, DecidableEq

/-- Python dict assignment `d[k] = v`: replace in place when the key exists
(insertion order kept), otherwise append. -/
def dictSet (d : List (String × FailureRecord)) (k : String) (v : FailureRecord) :
    List (String × FailureRecord) :=
  if (d.lookup k).isSome then d.map (fun p => if p.1 = k then (k, v) else p)
  else d ++ [(k, v)]

/-- Python `del d[k]`. -/
def dictErase (d : List (String × FailureRecord)) (k : String) :
    List (String × FailureRecord) :=
  d.filter (fun p => p.1 != k)

/-- Python `attempts = queue_data.get('failed', \x7b\x7d).get(channel_id, \x7b\x7d).get('attempts', 0)`. -/
def attemptsOf (failed : List (String × FailureRecord)) (channel_id : String) : Nat :=
  ((failed.lookup channel_id).map FailureRecord.attempts).getD 0

/-- Embeds `ResilientOrchestrator._calculate_cooldown` (youtube_orchestrator.py
lines 232-236): exponential backoff clamped at `max_cooldown`. -/
def calculate_cooldown (config : Config) (attempts : Nat) : Nat :=
  min (config.cooldown_after_failure * config.cooldown_multiplier ^ (attempts - 1))
    config.max_cooldown

/-- Embeds `is_channel_completed` (youtube_channel_scraper.py lines 1341-1350): the
identifier is in the global progress `completed_channels` list, or an output
artifact for it exists on disk (`artifacts` abstracts the filesystem check). -/
def is_channel_completed (channel_id : String) (progress : Progress)
    (artifacts : String → Bool) : Bool :=
  progress.completed_channels.contains channel_id || artifacts channel_id

/-- Embeds `ResilientOrchestrator._record_channel_failure` (lines 528-543): bump or
create the failure record in the queue's `failed` map and mirror it into the
progress `failed_channels` map. -/
def record_channel_failure (queueFailed progressFailed : List (String × FailureRecord))
    (channel_id error : String) :
    List (String × FailureRecord) × List (String × FailureRecord) :=
  let entry : FailureRecord :=
    match queueFailed.lookup channel_id with
    | some r => { attempts := r.attempts + 1, last_error := error }
    | none => { attempts := 1, last_error := error }
  (dictSet queueFailed channel_id entry, dictSet progressFailed channel_id entry)

/-- The countdown loop of `_check_consecutive_failures`:
`for i in range(current_idx - 1, max(0, current_idx - 10), -1)`, with `steps`
remaining iterations and `i` the current position.  A position at or past the
end of `channels` is skipped (`continue`); a position whose identifier is in
the failed map increments the count; the first other position breaks. -/
def consecScan (channels : List String) (failed : List (String × FailureRecord)) :
    Nat → Nat → Nat → Nat
  | 0, _, acc => acc
  | steps + 1, i, acc =>
    if channels.length ≤ i then consecScan channels failed steps (i - 1) acc
    else if (failed.lookup (channels.getD i "")).isSome then
      consecScan channels failed steps (i - 1) (acc + 1)
    else acc

/-- Embeds `ResilientOrchestrator._check_consecutive_failures` (lines 545-569).
The Python loop runs over `range(current_idx - 1, max(0, current_idx - 10), -1)`,
whose length is `current_idx - 1 - (current_idx - 10)` in truncated
subtraction, starting at position `current_idx - 1`. -/
def check_consecutive_failures (queue_data : QueueData) : Nat :=
  if queue_data.failed.isEmpty then 0
  else
    let current_idx := queue_data.current_index
    let stop := current_idx - 10
    consecScan queue_data.channels queue_data.failed (current_idx - 1 - stop)
      (current_idx - 1) 0

/-- In-memory state of the `run_scraping` loop.  `browserRestarts` counts
browser restart operations (cleanup plus reopen), `scrapeInvocations` counts
`scraper.scrape_channel` calls, `skippedExceptionIds` lists identifiers whose
scrape raised `ChannelSkippedException`; these are observers of external
events and are never read by the transition function. -/
structure ScrapeState where
  queue : QueueData
  progress : Progress
  stats : Stats
  channels_since_restart : Nat
  browserRestarts : Nat
  scrapeInvocations : Nat
  skippedExceptionIds : List String
  deriving Repr, DecidableEq

/-- Result of one loop iteration: the new state plus which checkpoint writes
(`save_queue_file`, `save_progress`) happened during the iteration. -/
structure StepResult where
  state : ScrapeState
  queueSaved : Bool
  progressSaved : Bool
  deriving Repr, DecidableEq

/-- The `try`/`except` block of `run_scraping` (lines 425-502), handling the
outcome of the `scrape_channel` call for the entity at loop index `i`. -/
def handleOutcome (i : Nat) (channel_id : String) (st : ScrapeState) :
    ScrapeOutcome → StepResult
  | .success =>
    { state :=
        { st with
          progress :=
            { st.progress with
              completed_channels := st.progress.completed_channels ++ [channel_id] }
          queue :=
            { st.queue with
              completed := st.queue.completed ++ [channel_id]
              current_index := i + 1
              failed := dictErase st.queue.failed channel_id }
          stats := { st.stats with success := st.stats.success + 1 }
          channels_since_restart := st.channels_since_restart + 1 }
      queueSaved := true
      progressSaved := true }
  | .skippedExisting _ =>
    { state :=
        { st with
          queue := { st.queue with current_index := i + 1 }
          stats := { st.stats with skipped := st.stats.skipped + 1 }
          skippedExceptionIds := st.skippedExceptionIds ++ [channel_id] }
      queueSaved := true
      progressSaved := false }
  | .notFound msg =>
    let fp := record_channel_failure st.queue.failed st.progress.failed_channels
      channel_id msg
    { state :=
        { st with
          queue := { st.queue with failed := fp.1, current_index := i + 1 }
          progress := { st.progress with failed_channels := fp.2 }
          stats := { st.stats with failed := st.stats.failed + 1 } }
      queueSaved := true
      progressSaved := true }
  | .rateLimited msg =>
    let fp := record_channel_failure st.queue.failed st.progress.failed_channels
      channel_id msg
    { state :=
        { st with
          queue := { st.queue with failed := fp.1 }
          progress := { st.progress with failed_channels := fp.2 }
          channels_since_restart := 0
          browserRestarts := st.browserRestarts + 1 }
      queueSaved := false
      progressSaved := false }
  | .transient msg =>
    let fp := record_channel_failure st.queue.failed st.progress.failed_channels
      channel_id msg
    let st' :=
      { st with
        queue := { st.queue with failed := fp.1, current_index := i + 1 }
        progress := { st.progress with failed_channels := fp.2 }
        stats := { st.stats with failed := st.stats.failed + 1 } }
    { state :=
        if 5 ≤ check_consecutive_failures st'.queue then
          { st' with channels_since_restart := 0, browserRestarts := st'.browserRestarts + 1 }
        else st'
      queueSaved := true
      progressSaved := true }

/-- The two actions taken between the skip checks and the scrape call: the
periodic browser restart (`channels_since_restart >= browser_restart_interval`)
and the `scrape_channel` invocation itself (counted by the observer). -/
def preScrape (config : Config) (st : ScrapeState) : ScrapeState :=
  if config.browser_restart_interval ≤ st.channels_since_restart then
    { st with
      channels_since_restart := 0
      browserRestarts := st.browserRestarts + 1
      scrapeInvocations := st.scrapeInvocations + 1 }
  else { st with scrapeInvocations := st.scrapeInvocations + 1 }

/-- One iteration of the `for i in range(start_index, total_channels)` loop of
`run_scraping` (lines 385-502): already-completed skip, retry-budget skip,
periodic browser restart, then the scrape attempt handled by `handleOutcome`.
`oracle i` is the outcome of the scrape at loop index `i`. -/
def stepEntity (config : Config) (oracle : Nat → ScrapeOutcome) (artifacts : String → Bool)
    (i : Nat) (st : ScrapeState) : StepResult :=
  match st.queue.channels.get? i with
  | none => { state := st, queueSaved := false, progressSaved := false }
  | some channel_id =>
    if is_channel_completed channel_id st.progress artifacts then
      { state := { st with stats := { st.stats with skipped := st.stats.skipped + 1 } }
        queueSaved := false
        progressSaved := false }
    else if config.max_channel_retries ≤ attemptsOf st.queue.failed channel_id then
      { state := { st with stats := { st.stats with failed := st.stats.failed + 1 } }
        queueSaved := false
        progressSaved := false }
    else
      handleOutcome i channel_id (preScrape config st) (oracle i)

/-- The scraping loop, processing loop indices `s, s+1, ..., s+k-1`. -/
def runSteps (config : Config) (oracle : Nat → ScrapeOutcome) (artifacts : String → Bool) :
    Nat → Nat → ScrapeState → ScrapeState
  | _, 0, st => st
  | s, k + 1, st =>
    runSteps config oracle artifacts (s + 1) k (stepEntity config oracle artifacts s st).state

/-- Initial in-memory state of `run_scraping`: the loaded queue and progress
documents, zeroed session stats and counters. -/
def initialScrapeState (queue_data : QueueData) (progress : Progress) : ScrapeState :=
  { queue := queue_data
    progress := progress
    stats := { success := 0, failed := 0, skipped := 0 }
    channels_since_restart := 0
    browserRestarts := 0
    scrapeInvocations := 0
    skippedExceptionIds := [] }

/-- Embeds `ResilientOrchestrator.run_scraping` (lines 333-526) restricted to its
loop: start at `current_index` of the loaded queue document and process every
entity up to the end of the channel list. -/
def run_scraping (config : Config) (oracle : Nat → ScrapeOutcome) (artifacts : String → Bool)
    (queue_data : QueueData) (progress : Progress) : ScrapeState :=
  runSteps config oracle artifacts queue_data.current_index
    (queue_data.channels.length - queue_data.current_index)
    (initialScrapeState queue_data progress)

/-- The state after the first `k` iterations of the `run_scraping` loop (all
iterations once `k` reaches the number of remaining entities): the queue
states reachable during a scraping run. -/
def scrapeStateAfter (config : Config) (oracle : Nat → ScrapeOutcome)
    (artifacts : String → Bool) (queue_data : QueueData) (progress : Progress)
    (k : Nat) : ScrapeState :=
  runSteps config oracle artifacts queue_data.current_index
    (min k (queue_data.channels.length - queue_data.current_index))
    (initialScrapeState queue_data progress)

/-- Below-cursor accounting (used for C8): every way the scraping loop can
leave a trace of the identifier at position `j` — membership in the queue's
completed list, a failure record, external completion (global progress or an
existing artifact), or a `ChannelSkippedException` skip. -/
def accounted (st : ScrapeState) (artifacts : String → Bool) (j : Nat) : Prop :=
  ∀ id, st.queue.channels.get? j = some id →
    st.queue.completed.contains id = true
    ∨ (st.queue.failed.lookup id).isSome = true
    ∨ is_channel_completed id st.progress artifacts = true
    ∨ st.skippedExceptionIds.contains id = true

/-- Why reading the queue file can fail: the three failure modes named by the
claim, all caught by the bare `except` of `load_queue_file`. -/
inductive ReadError where
  | missing
  | unreadable
  | invalidJson
  deriving Repr, DecidableEq

/-- Embeds `load_queue_file` (youtube_channel_scraper.py lines 1278-1285): return the
parsed document, or on any exception the default empty queue document. -/
def load_queue_file (contents : Except ReadError QueueData) : QueueData :=
  match contents with
  | .ok q => q
  | .error _ => { channels := [], completed := [], failed := [], current_index := 0 }

/-- Persisted discovery progress document, restricted to the fields mutated by
the query loop of `discover_channels`. -/
structure DiscoveryProgress where
  current_query_index : Nat
  completed_queries : List String
  failed_queries : List (String × Nat)
  deriving Repr, DecidableEq

/-- In-memory state of the `discover_channels` query loop.  `attemptedIndices`
is an observer listing the loop indices at which the search was actually
issued against the external surface. -/
structure DiscoveryState where
  progress : DiscoveryProgress
  attemptedIndices : List Nat
  deriving Repr, DecidableEq

/-- Python `set.add` on the `completed_queries` set (membership semantics). -/
def setAdd (l : List String) (q : String) : List String :=
  if l.contains q then l else l ++ [q]

/-- Python `failed_queries[query] = failed_queries.get(query, 0) + 1`. -/
def countIncr (d : List (String × Nat)) (q : String) : List (String × Nat) :=
  match d.lookup q with
  | some n => d.map (fun p => if p.1 = q then (q, n + 1) else p)
  | none => d ++ [(q, 1)]

/-- One iteration of the query loop of `discover_channels`
(youtube_channel_discovery.py lines 693-723): skip queries already in
`completed_queries`; on a successful search mark the query completed and set
`current_query_index = i + 1`; on a failed search only bump
`failed_queries[query]`.  `dOracle i` tells whether the search at loop index
`i` succeeds. -/
def discoveryStep (dOracle : Nat → Bool) (queries : List String) (i : Nat)
    (st : DiscoveryState) : DiscoveryState :=
  match queries.get? i with
  | none => st
  | some query =>
    if st.progress.completed_queries.contains query then st
    else if dOracle i then
      { st with
        attemptedIndices := st.attemptedIndices ++ [i]
        progress :=
          { st.progress with
            current_query_index := i + 1
            completed_queries := setAdd st.progress.completed_queries query } }
    else
      { st with
        attemptedIndices := st.attemptedIndices ++ [i]
        progress :=
          { st.progress with
            failed_queries := countIncr st.progress.failed_queries query } }

/-- The query loop, processing loop indices `i, i+1, ..., i+k-1`. -/
def runDiscoverySteps (dOracle : Nat → Bool) (queries : List String) :
    Nat → Nat → DiscoveryState → DiscoveryState
  | _, 0, st => st
  | i, k + 1, st =>
    runDiscoverySteps dOracle queries (i + 1) k (discoveryStep dOracle queries i st)

/-- The query loop of `discover_channels`, starting from the resume point
`current_query_index` of the loaded progress document. -/
def discover_channels (dOracle : Nat → Bool) (queries : List String)
    (progress0 : DiscoveryProgress) : DiscoveryState :=
  runDiscoverySteps dOracle queries progress0.current_query_index
    (queries.length - progress0.current_query_index)
    { progress := progress0, attemptedIndices := [] }

/-! ### Concrete scenarios used by counterexamples and witnesses -/

/-- One-channel queue scenario used by the C3 witness. -/
def c3wState : ScrapeState :=
  initialScrapeState
    { channels := ["a"], completed := [], failed := [], current_index := 0 }
    { completed_channels := [], failed_channels := [] }

/-- Rate-limited oracle used by the C3 witness. -/
def c3wOracle : Nat → ScrapeOutcome := fun _ => ScrapeOutcome.rateLimited "429"

/-- One-channel scenario used by the C4 counterexample. -/
def c4xState : ScrapeState :=
  initialScrapeState
    { channels := ["b"], completed := [], failed := [], current_index := 0 }
    { completed_channels := [], failed_channels := [] }

/-- One-channel scenario used by the C4 witness. -/
def c4wState : ScrapeState :=
  initialScrapeState
    { channels := ["a"], completed := [], failed := [], current_index := 0 }
    { completed_channels := [], failed_channels := [] }

/-- Outcome oracle of the C7 end-to-end scenario: Success for "a" (index 0),
NotFound for "b" (index 1), RateLimited for "c" (index 2). -/
def c7oracle : Nat → ScrapeOutcome := fun i =>
  if i = 0 then ScrapeOutcome.success
  else if i = 1 then ScrapeOutcome.notFound "not found"
  else ScrapeOutcome.rateLimited "429"

/-- Final state of one pass of the C7 scenario. -/
def c7final : ScrapeState :=
  run_scraping defaultConfig c7oracle (fun _ => false)
    { channels := ["a", "b", "c"], completed := [], failed := [], current_index := 0 }
    { completed_channels := [], failed_channels := [] }

/-- Final state of the one-channel `ChannelSkippedException` run used by the
C8 counterexample. -/
def c8xFinal : ScrapeState :=
  run_scraping defaultConfig (fun _ => ScrapeOutcome.skippedExisting "exists")
    (fun _ => false)
    { channels := ["a"], completed := [], failed := [], current_index := 0 }
    { completed_channels := [], failed_channels := [] }

/-- First run of the C9 counterexample scenario: a single entity that is
rate-limited, so the loop completes with `current_index` still 0. -/
def c9run1 : ScrapeState :=
  run_scraping defaultConfig (fun _ => ScrapeOutcome.rateLimited "429")
    (fun _ => false)
    { channels := ["a"], completed := [], failed := [], current_index := 0 }
    { completed_channels := [], failed_channels := [] }

/-- Second run of the C9 counterexample scenario, resuming from the queue and
progress left by the first run. -/
def c9run2 : ScrapeState :=
  run_scraping defaultConfig (fun _ => ScrapeOutcome.rateLimited "429")
    (fun _ => false) c9run1.queue c9run1.progress

/-- Fully-scraped queue used by the C9 witness. -/
def c9wQueue : QueueData :=
  { channels := ["a"], completed := ["a"], failed := [], current_index := 1 }

/-- Final state of the single-failing-query discovery run used by the C6
counterexample. -/
def c6xFinal : DiscoveryState :=
  discover_channels (fun _ => false) ["q1"]
    { current_query_index := 0, completed_queries := [], failed_queries := [] }

/-- Failure record used in the C5 queue scenarios. -/
def c5fr : FailureRecord := { attempts := 1, last_error := "err" }

/-- Queue with `current_index = 5` and every one of its five entities failed. -/
def c5xQueue : QueueData :=
  { channels := ["a", "b", "c", "d", "e"]
    completed := []
    failed := [("a", c5fr), ("b", c5fr), ("c", c5fr), ("d", c5fr), ("e", c5fr)]
    current_index := 5 }

/-- Queue with `current_index = 6` and the five entities at positions 1..5
failed, used by the C5 witness. -/
def c5wQueue : QueueData :=
  { channels := ["z", "a", "b", "c", "d", "e"]
    completed := []
    failed := [("a", c5fr), ("b", c5fr), ("c", c5fr), ("d", c5fr), ("e", c5fr)]
    current_index := 6 }

/-- Two-query discovery state used by the C6 witness. -/
def c6wState : DiscoveryState :=
  { progress := { current_query_index := 0, completed_queries := [], failed_queries := [] }
    attemptedIndices := [] }

/-- Outcome oracle of the C8 witness scenario: Success at index 0, NotFound at
index 1, RateLimited at index 2. -/
def c8wOracle : Nat → ScrapeOutcome := fun i =>
  if i = 0 then ScrapeOutcome.success
  else if i = 1 then ScrapeOutcome.notFound "nf"
  else ScrapeOutcome.rateLimited "rl"

/-- Three-channel queue of the C8 witness scenario. -/
def c8wQueue : QueueData :=
  { channels := ["x", "y", "z"], completed := [], failed := [], current_index := 0 }

/-! ### Association-list lemmas (Python dict semantics) -/

theorem lookup_replace_self {β : Type} (t : List (String × β)) (k : String) (v : β)
    (h : (t.lookup k).isSome = true) :
    (t.map (fun p => if p.1 = k then (k, v) else p)).lookup k = some v := by
  induction t with
  | nil => simp at h
  | cons p t ih =>
    obtain ⟨a, b⟩ := p
    by_cases hk : a = k
    · subst hk
      simp only [List.map_cons]
      rw [if_pos trivial]
      simp [List.lookup]
    · have hb' : (k == a) = false := by simp [Ne.symm hk]
      simp only [List.map_cons, if_neg hk]
      simp only [List.lookup, hb']
      simp only [List.lookup, hb'] at h
      exact ih h

theorem lookup_replace_ne {β : Type} (t : List (String × β)) (k : String) (v : β)
    (id : String) (h : id ≠ k) :
    (t.map (fun p => if p.1 = k then (k, v) else p)).lookup id = t.lookup id := by
  induction t with
  | nil => simp
  | cons p t ih =>
    obtain ⟨a, b⟩ := p
    by_cases hk : a = k
    · subst hk
      have hb : (id == a) = false := by simp [h]
      simp only [List.map_cons]
      rw [if_pos trivial]
      simp [List.lookup, hb, ih]
    · simp only [List.map_cons, if_neg hk]
      by_cases hia : id = a
      · subst hia
        simp [List.lookup]
      · have hb2 : (id == a) = false := by simp [hia]
        simp [List.lookup, hb2, ih]

theorem lookup_append_single_self {β : Type} (t : List (String × β)) (k : String) (v : β)
    (h : t.lookup k = none) : (t ++ [(k, v)]).lookup k = some v := by
  induction t with
  | nil => simp [List.lookup]
  | cons p t ih =>
    obtain ⟨a, b⟩ := p
    by_cases hk : k = a
    · subst hk
      simp [List.lookup] at h
    · have hb : (k == a) = false := by simp [hk]
      simp only [List.lookup, hb] at h
      simp only [List.cons_append, List.lookup, hb]
      exact ih h

theorem lookup_append_single_ne {β : Type} (t : List (String × β)) (k : String) (v : β)
    (id : String) (h : id ≠ k) :
    (t ++ [(k, v)]).lookup id = t.lookup id := by
  induction t with
  | nil =>
    have hb : (id == k) = false := by simp [h]
    simp [List.lookup, hb]
  | cons p t ih =>
    obtain ⟨a, b⟩ := p
    by_cases hia : id = a
    · subst hia
      simp [List.lookup]
    · have hb : (id == a) = false := by simp [hia]
      simp [List.lookup, hb, ih]

theorem lookup_dictSet_self (d : List (String × FailureRecord)) (k : String)
    (v : FailureRecord) : (dictSet d k v).lookup k = some v := by
  unfold dictSet
  by_cases h : (d.lookup k).isSome = true
  · rw [if_pos h]
    exact lookup_replace_self d k v h
  · rw [if_neg h]
    apply lookup_append_single_self
    cases hl : d.lookup k
    · rfl
    · rw [hl] at h
      simp at h

theorem lookup_dictSet_ne (d : List (String × FailureRecord)) (k : String)
    (v : FailureRecord) (id : String) (h : id ≠ k) :
    (dictSet d k v).lookup id = d.lookup id := by
  unfold dictSet
  by_cases hs : (d.lookup k).isSome = true
  · rw [if_pos hs]
    exact lookup_replace_ne d k v id h
  · rw [if_neg hs]
    exact lookup_append_single_ne d k v id h

theorem lookup_dictSet_isSome (d : List (String × FailureRecord)) (k : String)
    (v : FailureRecord) (id : String) (h : (d.lookup id).isSome = true) :
    ((dictSet d k v).lookup id).isSome = true := by
  by_cases hik : id = k
  · subst hik
    rw [lookup_dictSet_self]
    rfl
  · rw [lookup_dictSet_ne d k v id hik]
    exact h

theorem lookup_dictErase_ne (d : List (String × FailureRecord)) (k id : String)
    (h : id ≠ k) : (dictErase d k).lookup id = d.lookup id := by
  unfold dictErase
  induction d with
  | nil => simp
  | cons p t ih =>
    obtain ⟨a, b⟩ := p
    by_cases hk : a = k
    · subst hk
      have hb : (id == a) = false := by simp [h]
      simp [List.filter_cons, List.lookup, hb, ih]
    · by_cases hia : id = a
      · subst hia
        simp [List.filter_cons, List.lookup, hk]
      · have hb2 : (id == a) = false := by simp [hia]
        simp [List.filter_cons, List.lookup, hk, hb2, ih]

theorem lookup_record_self (qf pf : List (String × FailureRecord)) (id msg : String) :
    (record_channel_failure qf pf id msg).1.lookup id
      = some { attempts := attemptsOf qf id + 1, last_error := msg } := by
  unfold record_channel_failure attemptsOf
  cases h : qf.lookup id <;> simp [h, lookup_dictSet_self]

theorem isEmpty_false_of_lookup_isSome (d : List (String × FailureRecord)) (id : String)
    (h : (d.lookup id).isSome = true) : d.isEmpty = false := by
  cases d with
  | nil => simp [List.lookup] at h
  | cons p t => rfl

theorem attemptsOf_pos_isSome (d : List (String × FailureRecord)) (id : String)
    (h : 1 ≤ attemptsOf d id) : (d.lookup id).isSome = true := by
  unfold attemptsOf at h
  cases hl : d.lookup id
  · rw [hl] at h
    simp at h
  · rfl

/-! ### Structural lemmas about one loop iteration -/

theorem preScrape_queue (config : Config) (st : ScrapeState) :
    (preScrape config st).queue = st.queue := by
  unfold preScrape
  split <;> rfl

theorem preScrape_progress (config : Config) (st : ScrapeState) :
    (preScrape config st).progress = st.progress := by
  unfold preScrape
  split <;> rfl

theorem preScrape_stats (config : Config) (st : ScrapeState) :
    (preScrape config st).stats = st.stats := by
  unfold preScrape
  split <;> rfl

theorem preScrape_skipped_ids (config : Config) (st : ScrapeState) :
    (preScrape config st).skippedExceptionIds = st.skippedExceptionIds := by
  unfold preScrape
  split <;> rfl

theorem preScrape_restarts_le (config : Config) (st : ScrapeState) :
    st.browserRestarts ≤ (preScrape config st).browserRestarts := by
  unfold preScrape
  split <;> simp

theorem stepEntity_none (config : Config) (oracle : Nat → ScrapeOutcome)
    (artifacts : String → Bool) (i : Nat) (st : ScrapeState)
    (hch : st.queue.channels.get? i = none) :
    stepEntity config oracle artifacts i st
      = { state := st, queueSaved := false, progressSaved := false } := by
  unfold stepEntity
  rw [hch]

theorem stepEntity_skip_completed (config : Config) (oracle : Nat → ScrapeOutcome)
    (artifacts : String → Bool) (i : Nat) (st : ScrapeState) (channel_id : String)
    (hch : st.queue.channels.get? i = some channel_id)
    (hc : is_channel_completed channel_id st.progress artifacts = true) :
    stepEntity config oracle artifacts i st
      = { state := { st with stats := { st.stats with skipped := st.stats.skipped + 1 } }
          queueSaved := false
          progressSaved := false } := by
  unfold stepEntity
  rw [hch]
  simp only [hc, if_true]

theorem stepEntity_skip_budget (config : Config) (oracle : Nat → ScrapeOutcome)
    (artifacts : String → Bool) (i : Nat) (st : ScrapeState) (channel_id : String)
    (hch : st.queue.channels.get? i = some channel_id)
    (hnc : is_channel_completed channel_id st.progress artifacts = false)
    (hat : config.max_channel_retries ≤ attemptsOf st.queue.failed channel_id) :
    stepEntity config oracle artifacts i st
      = { state := { st with stats := { st.stats with failed := st.stats.failed + 1 } }
          queueSaved := false
          progressSaved := false } := by
  unfold stepEntity
  rw [hch]
  simp only [hnc, Bool.false_eq_true, if_false, if_pos hat]

theorem stepEntity_scrape (config : Config) (oracle : Nat → ScrapeOutcome)
    (artifacts : String → Bool) (i : Nat) (st : ScrapeState) (channel_id : String)
    (hch : st.queue.channels.get? i = some channel_id)
    (hnc : is_channel_completed channel_id st.progress artifacts = false)
    (hat : attemptsOf st.queue.failed channel_id < config.max_channel_retries) :
    stepEntity config oracle artifacts i st
      = handleOutcome i channel_id (preScrape config st) (oracle i) := by
  unfold stepEntity
  rw [hch]
  simp only [hnc, Bool.false_eq_true, if_false, if_neg (Nat.not_le.mpr hat)]

theorem handleOutcome_ci (i : Nat) (channel_id : String) (st : ScrapeState)
    (o : ScrapeOutcome) :
    (handleOutcome i channel_id st o).state.queue.current_index = st.queue.current_index
    ∨ (handleOutcome i channel_id st o).state.queue.current_index = i + 1 := by
  cases o with
  | success => right; rfl
  | skippedExisting msg => right; rfl
  | notFound msg => right; rfl
  | rateLimited msg => left; rfl
  | transient msg =>
    right
    simp only [handleOutcome]
    split <;> rfl

theorem handleOutcome_channels (i : Nat) (channel_id : String) (st : ScrapeState)
    (o : ScrapeOutcome) :
    (handleOutcome i channel_id st o).state.queue.channels = st.queue.channels := by
  cases o with
  | success => rfl
  | skippedExisting msg => rfl
  | notFound msg => rfl
  | rateLimited msg => rfl
  | transient msg =>
    simp only [handleOutcome]
    split <;> rfl

theorem stepEntity_ci (config : Config) (oracle : Nat → ScrapeOutcome)
    (artifacts : String → Bool) (i : Nat) (st : ScrapeState) :
    (stepEntity config oracle artifacts i st).state.queue.current_index
        = st.queue.current_index
    ∨ (stepEntity config oracle artifacts i st).state.queue.current_index = i + 1 := by
  cases hch : st.queue.channels.get? i with
  | none => left; rw [stepEntity_none config oracle artifacts i st hch]
  | some channel_id =>
    by_cases hc : is_channel_completed channel_id st.progress artifacts = true
    · left
      rw [stepEntity_skip_completed config oracle artifacts i st channel_id hch hc]
    · have hc' : is_channel_completed channel_id st.progress artifacts = false := by
        simpa using hc
      by_cases hat : config.max_channel_retries ≤ attemptsOf st.queue.failed channel_id
      · left
        rw [stepEntity_skip_budget config oracle artifacts i st channel_id hch hc' hat]
      · rw [stepEntity_scrape config oracle artifacts i st channel_id hch hc'
          (Nat.lt_of_not_le hat)]
        have h := handleOutcome_ci i channel_id (preScrape config st) (oracle i)
        rw [preScrape_queue] at h
        exact h

theorem stepEntity_channels (config : Config) (oracle : Nat → ScrapeOutcome)
    (artifacts : String → Bool) (i : Nat) (st : ScrapeState) :
    (stepEntity config oracle artifacts i st).state.queue.channels
      = st.queue.channels := by
  cases hch : st.queue.channels.get? i with
  | none => rw [stepEntity_none config oracle artifacts i st hch]
  | some channel_id =>
    by_cases hc : is_channel_completed channel_id st.progress artifacts = true
    · rw [stepEntity_skip_completed config oracle artifacts i st channel_id hch hc]
    · have hc' : is_channel_completed channel_id st.progress artifacts = false := by
        simpa using hc
      by_cases hat : config.max_channel_retries ≤ attemptsOf st.queue.failed channel_id
      · rw [stepEntity_skip_budget config oracle artifacts i st channel_id hch hc' hat]
      · rw [stepEntity_scrape config oracle artifacts i st channel_id hch hc'
          (Nat.lt_of_not_le hat)]
        have h := handleOutcome_channels i channel_id (preScrape config st) (oracle i)
        rw [preScrape_queue] at h
        exact h

/-! ### Run-level lemmas -/

theorem runSteps_zero (config : Config) (oracle : Nat → ScrapeOutcome)
    (artifacts : String → Bool) (s : Nat) (st : ScrapeState) :
    runSteps config oracle artifacts s 0 st = st := rfl

theorem runSteps_succ (config : Config) (oracle : Nat → ScrapeOutcome)
    (artifacts : String → Bool) (s k : Nat) (st : ScrapeState) :
    runSteps config oracle artifacts s (k + 1) st
      = runSteps config oracle artifacts (s + 1) k
          (stepEntity config oracle artifacts s st).state := rfl

theorem runSteps_add (config : Config) (oracle : Nat → ScrapeOutcome)
    (artifacts : String → Bool) :
    ∀ k₁ k₂ s (st : ScrapeState),
      runSteps config oracle artifacts s (k₁ + k₂) st
        = runSteps config oracle artifacts (s + k₁) k₂
            (runSteps config oracle artifacts s k₁ st) := by
  intro k₁
  induction k₁ with
  | zero =>
    intro k₂ s st
    simp [runSteps_zero]
  | succ k ih =>
    intro k₂ s st
    have e1 : k + 1 + k₂ = (k + k₂) + 1 := by omega
    rw [e1, runSteps_succ, ih, runSteps_succ]
    have e2 : s + 1 + k = s + (k + 1) := by omega
    rw [e2]

theorem runSteps_ci_bounds (config : Config) (oracle : Nat → ScrapeOutcome)
    (artifacts : String → Bool) :
    ∀ k s (st : ScrapeState), st.queue.current_index ≤ s →
      st.queue.current_index
          ≤ (runSteps config oracle artifacts s k st).queue.current_index
      ∧ (runSteps config oracle artifacts s k st).queue.current_index ≤ s + k := by
  intro k
  induction k with
  | zero =>
    intro s st h
    rw [runSteps_zero]
    exact ⟨Nat.le_refl _, by omega⟩
  | succ k ih =>
    intro s st h
    rw [runSteps_succ]
    have hstep := stepEntity_ci config oracle artifacts s st
    have h1 : st.queue.current_index
        ≤ (stepEntity config oracle artifacts s st).state.queue.current_index := by
      rcases hstep with h' | h' <;> omega
    have h2 : (stepEntity config oracle artifacts s st).state.queue.current_index
        ≤ s + 1 := by
      rcases hstep with h' | h' <;> omega
    have hrest := ih (s + 1) (stepEntity config oracle artifacts s st).state h2
    exact ⟨Nat.le_trans h1 hrest.1, by omega⟩

theorem runSteps_channels (config : Config) (oracle : Nat → ScrapeOutcome)
    (artifacts : String → Bool) :
    ∀ k s (st : ScrapeState),
      (runSteps config oracle artifacts s k st).queue.channels
        = st.queue.channels := by
  intro k
  induction k with
  | zero =>
    intro s st
    rw [runSteps_zero]
  | succ k ih =>
    intro s st
    rw [runSteps_succ, ih, stepEntity_channels]

/-! ### Claim theorems -/

/-- C1: `_calculate_cooldown` is a pure deterministic function of
`(base, multiplier, max_cooldown, attempt)`: for every attempt it returns
`min(base * multiplier ^ (attempt - 1), max_cooldown)`; `cooldown(1) = base`
and `cooldown(2) = base * multiplier` (whenever not clamped, which holds in
particular for the default configuration), `cooldown(k)` is clamped at
`max_cooldown` for large `k`, and with `base = 60`, `multiplier = 2`,
`max = 600` the values for attempts 1..5 are 60, 120, 240, 480, 600. -/
theorem c1_cooldown_backoff (config : Config) (attempt : Nat) (h : 1 ≤ attempt) :
    calculate_cooldown config attempt
        = min (config.cooldown_after_failure
            * config.cooldown_multiplier ^ (attempt - 1)) config.max_cooldown
    ∧ (config.cooldown_after_failure ≤ config.max_cooldown →
        calculate_cooldown config 1 = config.cooldown_after_failure)
    ∧ (config.cooldown_after_failure * config.cooldown_multiplier
          ≤ config.max_cooldown →
        calculate_cooldown config 2
          = config.cooldown_after_failure * config.cooldown_multiplier)
    ∧ (∀ k, config.max_cooldown
          ≤ config.cooldown_after_failure * config.cooldown_multiplier ^ (k - 1) →
        calculate_cooldown config k = config.max_cooldown)
    ∧ calculate_cooldown defaultConfig 1 = 60
    ∧ calculate_cooldown defaultConfig 2 = 120
    ∧ calculate_cooldown defaultConfig 3 = 240
    ∧ calculate_cooldown defaultConfig 4 = 480
    ∧ calculate_cooldown defaultConfig 5 = 600 := by
  refine ⟨rfl, ?_, ?_, ?_, by decide, by decide, by decide, by decide, by decide⟩
  · intro hb
    simp [calculate_cooldown, Nat.min_eq_left hb]
  · intro hb
    have : config.cooldown_multiplier ^ (2 - 1) = config.cooldown_multiplier := by
      simp
    simp only [calculate_cooldown, this]
    exact Nat.min_eq_left hb
  · intro k hk
    simp only [calculate_cooldown]
    exact Nat.min_eq_right hk

/-- Witness for C1 at the default configuration and attempt 1. -/
theorem c1_cooldown_backoff_witness :
    1 ≤ 1
    ∧ calculate_cooldown defaultConfig 1
        = min (defaultConfig.cooldown_after_failure
            * defaultConfig.cooldown_multiplier ^ (1 - 1)) defaultConfig.max_cooldown :=
  ⟨Nat.le_refl 1, (c1_cooldown_backoff defaultConfig 1 (Nat.le_refl 1)).1⟩

/-- C2: for every queue state reachable during a scraping run — any initial
queue and progress documents, any start index (`current_index` of the loaded
queue), any sequence of per-entity outcomes — the queue's `current_index`
never decreases as the run proceeds. -/
theorem c2_monotonic_cursor (config : Config) (oracle : Nat → ScrapeOutcome)
    (artifacts : String → Bool) (queue_data : QueueData) (progress : Progress)
    (k₁ k₂ : Nat) (hk : k₁ ≤ k₂) :
    (scrapeStateAfter config oracle artifacts queue_data progress k₁).queue.current_index
      ≤ (scrapeStateAfter config oracle artifacts queue_data progress k₂).queue.current_index := by
  unfold scrapeStateAfter
  have h0 : (initialScrapeState queue_data progress).queue.current_index
      = queue_data.current_index := rfl
  have hm : min k₁ (queue_data.channels.length - queue_data.current_index)
      ≤ min k₂ (queue_data.channels.length - queue_data.current_index) := by omega
  obtain ⟨d, hd⟩ : ∃ d, min k₂ (queue_data.channels.length - queue_data.current_index)
      = min k₁ (queue_data.channels.length - queue_data.current_index) + d :=
    ⟨_, (Nat.add_sub_cancel' hm).symm⟩
  rw [hd, runSteps_add]
  have hb := runSteps_ci_bounds config oracle artifacts
    (min k₁ (queue_data.channels.length - queue_data.current_index))
    queue_data.current_index (initialScrapeState queue_data progress) (Nat.le_of_eq h0)
  exact (runSteps_ci_bounds config oracle artifacts d _ _ hb.2).1

/-- Witness for C2: the rate-limit scenario with a single channel, comparing
the state after 0 and after 1 iterations. -/
theorem c2_monotonic_cursor_witness :
    0 ≤ 1
    ∧ (scrapeStateAfter defaultConfig (fun _ => ScrapeOutcome.rateLimited "429")
          (fun _ => false)
          { channels := ["a"], completed := [], failed := [], current_index := 0 }
          { completed_channels := [], failed_channels := [] } 0).queue.current_index
      ≤ (scrapeStateAfter defaultConfig (fun _ => ScrapeOutcome.rateLimited "429")
          (fun _ => false)
          { channels := ["a"], completed := [], failed := [], current_index := 0 }
          { completed_channels := [], failed_channels := [] } 1).queue.current_index :=
  ⟨Nat.zero_le 1,
    c2_monotonic_cursor defaultConfig (fun _ => ScrapeOutcome.rateLimited "429")
      (fun _ => false)
      { channels := ["a"], completed := [], failed := [], current_index := 0 }
      { completed_channels := [], failed_channels := [] } 0 1 (Nat.zero_le 1)⟩

/-- C3: when the entity at loop position `i` is actually scraped, a
`RateLimited` outcome records a failure (attempts bumped, message stored) but
leaves `current_index` unchanged, whereas a `TransientError` outcome records a
failure and sets `current_index` to `i + 1`. -/
theorem c3_ratelimit_vs_transient (config : Config) (oracle : Nat → ScrapeOutcome)
    (artifacts : String → Bool) (i : Nat) (st : ScrapeState) (channel_id msg : String)
    (hch : st.queue.channels.get? i = some channel_id)
    (hnc : is_channel_completed channel_id st.progress artifacts = false)
    (hat : attemptsOf st.queue.failed channel_id < config.max_channel_retries) :
    (oracle i = ScrapeOutcome.rateLimited msg →
      (stepEntity config oracle artifacts i st).state.queue.current_index
          = st.queue.current_index
      ∧ (stepEntity config oracle artifacts i st).state.queue.failed.lookup channel_id
          = some { attempts := attemptsOf st.queue.failed channel_id + 1
                   last_error := msg })
    ∧ (oracle i = ScrapeOutcome.transient msg →
      (stepEntity config oracle artifacts i st).state.queue.current_index = i + 1
      ∧ (stepEntity config oracle artifacts i st).state.queue.failed.lookup channel_id
          = some { attempts := attemptsOf st.queue.failed channel_id + 1
                   last_error := msg }) := by
  rw [stepEntity_scrape config oracle artifacts i st channel_id hch hnc hat]
  constructor
  · intro ho
    rw [ho]
    simp only [handleOutcome, preScrape_queue, preScrape_progress]
    exact ⟨trivial, lookup_record_self _ _ _ _⟩
  · intro ho
    rw [ho]
    simp only [handleOutcome, preScrape_queue, preScrape_progress]
    constructor
    · split <;> rfl
    · have := lookup_record_self st.queue.failed st.progress.failed_channels
        channel_id msg
      split <;> exact this

/-- Witness for C3: one-channel queue, rate-limited oracle. -/
theorem c3_ratelimit_vs_transient_witness :
    c3wState.queue.channels.get? 0 = some "a"
    ∧ (c3wOracle 0 = ScrapeOutcome.rateLimited "429" →
        (stepEntity defaultConfig c3wOracle (fun _ => false) 0
            c3wState).state.queue.current_index = c3wState.queue.current_index
        ∧ (stepEntity defaultConfig c3wOracle (fun _ => false) 0
            c3wState).state.queue.failed.lookup "a"
          = some { attempts := attemptsOf c3wState.queue.failed "a" + 1
                   last_error := "429" }) :=
  ⟨rfl,
    (c3_ratelimit_vs_transient defaultConfig c3wOracle (fun _ => false) 0 c3wState
      "a" "429" rfl rfl (by decide)).1⟩

/-- C10: `load_queue_file` never raises: for a queue file that is missing,
unreadable, or not valid JSON, it returns the default empty queue document
with `channels = []`, `completed = []`, `failed = \x7b\x7d` and
`current_index = 0`. -/
theorem c10_load_queue_file_default (e : ReadError) :
    load_queue_file (Except.error e)
      = { channels := [], completed := [], failed := [], current_index := 0 } := rfl

/-- C4 counterexample: the claim says both files are rewritten after every
processed entity, whatever its outcome.  But for a rate-limited entity (whose
scrape is invoked: `scrapeInvocations = 1`) neither `save_queue_file` nor
`save_progress` runs during the iteration, and for a `ChannelSkippedException`
entity `save_progress` does not run. -/
theorem c4_counterexample :
    (stepEntity defaultConfig (fun _ => ScrapeOutcome.rateLimited "429")
        (fun _ => false) 0 c4xState).state.scrapeInvocations = 1
    ∧ (stepEntity defaultConfig (fun _ => ScrapeOutcome.rateLimited "429")
        (fun _ => false) 0 c4xState).queueSaved = false
    ∧ (stepEntity defaultConfig (fun _ => ScrapeOutcome.rateLimited "429")
        (fun _ => false) 0 c4xState).progressSaved = false
    ∧ (stepEntity defaultConfig (fun _ => ScrapeOutcome.skippedExisting "exists")
        (fun _ => false) 0 c4xState).queueSaved = true
    ∧ (stepEntity defaultConfig (fun _ => ScrapeOutcome.skippedExisting "exists")
        (fun _ => false) 0 c4xState).progressSaved = false := by decide

/-- C4 (amended): after a scraped entity, the checkpoint writes depend on the
outcome — Success, NotFound and TransientError rewrite both the queue file and
the global progress file before the next entity; a ChannelSkippedException
rewrites only the queue file; a RateLimited outcome rewrites neither (both are
flushed only by the final save after the loop). -/
theorem c4_amended (config : Config) (oracle : Nat → ScrapeOutcome)
    (artifacts : String → Bool) (i : Nat) (st : ScrapeState) (channel_id : String)
    (hch : st.queue.channels.get? i = some channel_id)
    (hnc : is_channel_completed channel_id st.progress artifacts = false)
    (hat : attemptsOf st.queue.failed channel_id < config.max_channel_retries) :
    (oracle i = ScrapeOutcome.success →
      (stepEntity config oracle artifacts i st).queueSaved = true
      ∧ (stepEntity config oracle artifacts i st).progressSaved = true)
    ∧ (∀ msg, oracle i = ScrapeOutcome.notFound msg →
      (stepEntity config oracle artifacts i st).queueSaved = true
      ∧ (stepEntity config oracle artifacts i st).progressSaved = true)
    ∧ (∀ msg, oracle i = ScrapeOutcome.transient msg →
      (stepEntity config oracle artifacts i st).queueSaved = true
      ∧ (stepEntity config oracle artifacts i st).progressSaved = true)
    ∧ (∀ msg, oracle i = ScrapeOutcome.skippedExisting msg →
      (stepEntity config oracle artifacts i st).queueSaved = true
      ∧ (stepEntity config oracle artifacts i st).progressSaved = false)
    ∧ (∀ msg, oracle i = ScrapeOutcome.rateLimited msg →
      (stepEntity config oracle artifacts i st).queueSaved = false
      ∧ (stepEntity config oracle artifacts i st).progressSaved = false) := by
  rw [stepEntity_scrape config oracle artifacts i st channel_id hch hnc hat]
  refine ⟨?_, ?_, ?_, ?_, ?_⟩
  · intro ho
    rw [ho]
    exact ⟨rfl, rfl⟩
  · intro msg ho
    rw [ho]
    exact ⟨rfl, rfl⟩
  · intro msg ho
    rw [ho]
    exact ⟨rfl, rfl⟩
  · intro msg ho
    rw [ho]
    exact ⟨rfl, rfl⟩
  · intro msg ho
    rw [ho]
    exact ⟨rfl, rfl⟩

/-- Witness for C4 (amended) in the Success case. -/
theorem c4_amended_witness :
    c4wState.queue.channels.get? 0 = some "a"
    ∧ ((fun _ => ScrapeOutcome.success) 0 = ScrapeOutcome.success →
        (stepEntity defaultConfig (fun _ => ScrapeOutcome.success) (fun _ => false) 0
            c4wState).queueSaved = true
        ∧ (stepEntity defaultConfig (fun _ => ScrapeOutcome.success) (fun _ => false) 0
            c4wState).progressSaved = true) :=
  ⟨rfl,
    (c4_amended defaultConfig (fun _ => ScrapeOutcome.success) (fun _ => false) 0
      c4wState "a" rfl rfl (by decide)).1⟩

/-- C7 counterexample: in the claimed scenario the failed map is not
`\x7b"b": ...\x7d` — the rate-limited entity "c" also receives a failure
record, so the failed map has keys `["b", "c"]`. -/
theorem c7_counterexample :
    c7final.queue.completed = ["a"]
    ∧ c7final.queue.current_index = 2
    ∧ (c7final.queue.failed.lookup "c").isSome = true
    ∧ c7final.queue.failed.map Prod.fst = ["b", "c"] := by decide

/-- C7 (amended): after one pass of the scenario, `completed = ["a"]`, the
failed map records both "b" (NotFound) and "c" (RateLimited) with one attempt
each, `current_index = 2`, exactly one forced browser restart occurred, and
the session stats are success 1, failed 1, skipped 0. -/
theorem c7_amended :
    c7final.queue.completed = ["a"]
    ∧ c7final.queue.failed
        = [("b", { attempts := 1, last_error := "not found" }),
           ("c", { attempts := 1, last_error := "429" })]
    ∧ c7final.queue.current_index = 2
    ∧ c7final.browserRestarts = 1
    ∧ c7final.stats = { success := 1, failed := 1, skipped := 0 } := by decide

/-- C8 counterexample: a `ChannelSkippedException` advances `current_index`
past the entity without recording it in the queue's completed list or failed
map, so the identifier at position 0 (below the cursor) is in neither. -/
theorem c8_counterexample :
    c8xFinal.queue.current_index = 1
    ∧ c8xFinal.queue.channels.get? 0 = some "a"
    ∧ c8xFinal.queue.completed.contains "a" = false
    ∧ c8xFinal.queue.failed.lookup "a" = none := by decide

/-- C9 counterexample: after running the scraping stage to completion (the
loop finishes), re-running with the same queue file performs one additional
`scrape_channel` invocation — not zero — and skips nothing, because the
rate-limited entity left `current_index` at 0 with an attempt budget of 1 of 3. -/
theorem c9_counterexample :
    c9run1.queue.current_index = 0
    ∧ c9run2.scrapeInvocations = 1
    ∧ c9run2.stats.skipped = 0 := by decide

/-- C9 (amended): when a run on the queue file starts with `current_index`
already at the end of the queue — in particular, re-running after a first run
that advanced the cursor to the end — the loop body never executes: zero
`scrape_channel` invocations occur, the returned counts are all zero (not the
first run's counts, and without individually skipping entities), and the
queue document is unchanged.  Without that condition the idempotence claim
fails: `c9_counterexample` exhibits a first run (trailing RateLimited entity)
whose re-run performs an additional scrape invocation. -/
theorem c9_amended (config : Config) (oracle : Nat → ScrapeOutcome)
    (artifacts : String → Bool) (queue_data : QueueData) (progress : Progress)
    (h : queue_data.current_index = queue_data.channels.length) :
    (run_scraping config oracle artifacts queue_data progress).scrapeInvocations = 0
    ∧ (run_scraping config oracle artifacts queue_data progress).stats
        = { success := 0, failed := 0, skipped := 0 }
    ∧ (run_scraping config oracle artifacts queue_data progress).queue = queue_data := by
  unfold run_scraping
  rw [h, Nat.sub_self]
  exact ⟨rfl, rfl, rfl⟩

/-- Witness for C9 (amended): re-running on a queue whose cursor is at the
end performs zero scrape invocations. -/
theorem c9_amended_witness :
    c9wQueue.current_index = c9wQueue.channels.length
    ∧ (run_scraping defaultConfig (fun _ => ScrapeOutcome.success) (fun _ => false)
        c9wQueue { completed_channels := ["a"], failed_channels := [] }).scrapeInvocations
        = 0 :=
  ⟨rfl,
    (c9_amended defaultConfig (fun _ => ScrapeOutcome.success) (fun _ => false)
      c9wQueue { completed_channels := ["a"], failed_channels := [] } rfl).1⟩

/-- C6 counterexample: the query at index 0 is attempted and fails; the
persisted `current_query_index` stays 0 — it is not advanced past the
attempted query, contrary to the claim that the cursor advances after every
attempt regardless of success or failure. -/
theorem c6_counterexample :
    c6xFinal.attemptedIndices = [0]
    ∧ c6xFinal.progress.current_query_index = 0
    ∧ c6xFinal.progress.failed_queries = [("q1", 1)] := by decide

/-! ### The consecutive-failure scan (C5) -/

theorem consecScan_ge_acc (channels : List String) (failed : List (String × FailureRecord)) :
    ∀ steps i acc, acc ≤ consecScan channels failed steps i acc := by
  intro steps
  induction steps with
  | zero =>
    intro i acc
    exact Nat.le_refl acc
  | succ k ih =>
    intro i acc
    unfold consecScan
    split
    · exact ih _ _
    · split
      · exact Nat.le_trans (Nat.le_succ acc) (ih _ _)
      · exact Nat.le_refl _

theorem consecScan_count (channels : List String) (failed : List (String × FailureRecord)) :
    ∀ n steps i acc,
      n ≤ steps →
      (∀ m, m < n → i - m < channels.length
        ∧ (failed.lookup (channels.getD (i - m) "")).isSome = true) →
      n + acc ≤ consecScan channels failed steps i acc := by
  intro n
  induction n with
  | zero =>
    intro steps i acc _ _
    simpa using consecScan_ge_acc channels failed steps i acc
  | succ n ih =>
    intro steps i acc hs hall
    obtain ⟨steps', rfl⟩ : ∃ s', steps = s' + 1 := ⟨steps - 1, by omega⟩
    obtain ⟨h0l, h0r⟩ := hall 0 (Nat.succ_pos n)
    rw [Nat.sub_zero] at h0l h0r
    unfold consecScan
    rw [if_neg (by omega), if_pos h0r]
    have hall' : ∀ m, m < n → (i - 1) - m < channels.length
        ∧ (failed.lookup (channels.getD ((i - 1) - m) "")).isSome = true := by
      intro m hm
      have h := hall (m + 1) (by omega)
      have e : i - 1 - m = i - (m + 1) := by omega
      rw [e]
      exact h
    have hrec := ih steps' (i - 1) (acc + 1) (by omega) hall'
    omega

/-- C5 counterexample: entities at positions `current_index-5 .. current_index-1`
(= 0..4) are all in the failed map, yet `_check_consecutive_failures` returns
4, not 5: the Python `range(current_idx-1, max(0, current_idx-10), -1)`
excludes its stop bound, so position 0 is never examined. -/
theorem c5_counterexample :
    c5xQueue.current_index = 5
    ∧ (c5xQueue.failed.lookup (c5xQueue.channels.getD 0 "")).isSome = true
    ∧ (c5xQueue.failed.lookup (c5xQueue.channels.getD 1 "")).isSome = true
    ∧ (c5xQueue.failed.lookup (c5xQueue.channels.getD 2 "")).isSome = true
    ∧ (c5xQueue.failed.lookup (c5xQueue.channels.getD 3 "")).isSome = true
    ∧ (c5xQueue.failed.lookup (c5xQueue.channels.getD 4 "")).isSome = true
    ∧ check_consecutive_failures c5xQueue = 4 := by decide

theorem handleOutcome_transient_restart (i : Nat) (channel_id msg : String)
    (st : ScrapeState)
    (h : 5 ≤ check_consecutive_failures
      (handleOutcome i channel_id st (ScrapeOutcome.transient msg)).state.queue) :
    (handleOutcome i channel_id st
        (ScrapeOutcome.transient msg)).state.channels_since_restart = 0
    ∧ st.browserRestarts
        < (handleOutcome i channel_id st
            (ScrapeOutcome.transient msg)).state.browserRestarts := by
  simp only [handleOutcome] at h ⊢
  split at h
  · rename_i hc
    rw [if_pos hc]
    exact ⟨rfl, Nat.lt_succ_self _⟩
  · rename_i hc
    exact absurd h hc

/-- C5 (amended): the scan walks positions `current_index-1` down to but
excluding `max(0, current_index-10)` (at most 9 positions, never position 0),
counting failed entities until the first non-failed one.  When the entities at
positions `current_index-5 .. current_index-1` are all failed and
`current_index ≥ 6` (so position `current_index-5` is above the excluded stop
bound), it returns at least 5; and after a TransientError whose updated queue
scores `≥ 5`, the browser is restarted before the next entity is attempted. -/
theorem c5_amended :
    (∀ q : QueueData,
      q.current_index ≤ q.channels.length →
      6 ≤ q.current_index →
      (∀ j, q.current_index - 5 ≤ j → j < q.current_index →
        (q.failed.lookup (q.channels.getD j "")).isSome = true) →
      5 ≤ check_consecutive_failures q)
    ∧ (∀ (config : Config) (oracle : Nat → ScrapeOutcome) (artifacts : String → Bool)
        (i : Nat) (st : ScrapeState) (channel_id msg : String),
        st.queue.channels.get? i = some channel_id →
        is_channel_completed channel_id st.progress artifacts = false →
        attemptsOf st.queue.failed channel_id < config.max_channel_retries →
        oracle i = ScrapeOutcome.transient msg →
        5 ≤ check_consecutive_failures
          (stepEntity config oracle artifacts i st).state.queue →
        (stepEntity config oracle artifacts i st).state.channels_since_restart = 0
        ∧ st.browserRestarts
            < (stepEntity config oracle artifacts i st).state.browserRestarts) := by
  constructor
  · intro q hlen hci hall
    have hne : q.failed.isEmpty = false := by
      have h1 := hall (q.current_index - 1) (by omega) (by omega)
      exact isEmpty_false_of_lookup_isSome _ _ h1
    simp only [check_consecutive_failures, hne, Bool.false_eq_true, if_false]
    have hcount := consecScan_count q.channels q.failed 5
      (q.current_index - 1 - (q.current_index - 10)) (q.current_index - 1) 0
      (by omega) ?_
    · omega
    · intro m hm
      refine ⟨by omega, hall (q.current_index - 1 - m) (by omega) (by omega)⟩
  · intro config oracle artifacts i st channel_id msg hch hnc hat ho hcheck
    rw [stepEntity_scrape config oracle artifacts i st channel_id hch hnc hat, ho]
      at hcheck ⊢
    have h := handleOutcome_transient_restart i channel_id msg
      (preScrape config st) hcheck
    exact ⟨h.1, Nat.lt_of_le_of_lt (preScrape_restarts_le config st) h.2⟩

/-- Witness for C5 (amended): at `current_index = 6` with positions 1..5 all
failed, the scan reaches 5. -/
theorem c5_amended_witness :
    c5wQueue.current_index ≤ c5wQueue.channels.length
    ∧ 6 ≤ c5wQueue.current_index
    ∧ 5 ≤ check_consecutive_failures c5wQueue :=
  ⟨by decide, by decide,
    c5_amended.1 c5wQueue (by decide) (by decide) (by
      intro j h1 h2
      have hj : j = 1 ∨ j = 2 ∨ j = 3 ∨ j = 4 ∨ j = 5 := by
        simp only [c5wQueue] at h1 h2
        omega
      rcases hj with rfl | rfl | rfl | rfl | rfl <;> decide)⟩

/-! ### Discovery-loop lemmas (C6) -/

theorem lookup_countIncr_self (d : List (String × Nat)) (q : String) :
    (countIncr d q).lookup q = some ((d.lookup q).getD 0 + 1) := by
  unfold countIncr
  cases h : d.lookup q with
  | some n =>
    simp only [Option.getD_some]
    apply lookup_replace_self
    rw [h]
    rfl
  | none =>
    simp only [Option.getD_none]
    exact lookup_append_single_self d q 1 h

theorem discoveryStep_attempted (dOracle : Nat → Bool) (queries : List String) (i : Nat)
    (st : DiscoveryState) :
    (discoveryStep dOracle queries i st).attemptedIndices = st.attemptedIndices
    ∨ (discoveryStep dOracle queries i st).attemptedIndices
        = st.attemptedIndices ++ [i] := by
  unfold discoveryStep
  split
  · left; rfl
  · split
    · left; rfl
    · split
      · right; rfl
      · right; rfl

theorem attempted_sublist (dOracle : Nat → Bool) (queries : List String) :
    ∀ k i (st : DiscoveryState),
      (runDiscoverySteps dOracle queries i k st).attemptedIndices.Sublist
        (st.attemptedIndices ++ List.range' i k) := by
  intro k
  induction k with
  | zero =>
    intro i st
    simp [runDiscoverySteps, List.range'_zero]
  | succ k ih =>
    intro i st
    have h1 := ih (i + 1) (discoveryStep dOracle queries i st)
    have h2 := discoveryStep_attempted dOracle queries i st
    rw [List.range'_succ]
    show (runDiscoverySteps dOracle queries (i + 1) k
        (discoveryStep dOracle queries i st)).attemptedIndices.Sublist _
    rcases h2 with h2 | h2
    · rw [h2] at h1
      exact h1.trans (List.Sublist.append_left (List.sublist_cons_self i _) _)
    · rw [h2] at h1
      rw [List.append_assoc] at h1
      exact h1

/-- C6 (amended): the persisted `current_query_index` is advanced past an
attempted query only when the search succeeds; on a failed search the cursor
is left unchanged and `failed_queries[query]` is incremented.  The in-memory
loop still visits each position at most once (the attempted loop indices form
a duplicate-free list), so a failed query is not retried within the same run. -/
theorem c6_amended (dOracle : Nat → Bool) (queries : List String) :
    (∀ (i : Nat) (st : DiscoveryState) (query : String),
      queries.get? i = some query →
      st.progress.completed_queries.contains query = false →
      (dOracle i = true →
        (discoveryStep dOracle queries i st).progress.current_query_index = i + 1)
      ∧ (dOracle i = false →
        (discoveryStep dOracle queries i st).progress.current_query_index
            = st.progress.current_query_index
        ∧ (discoveryStep dOracle queries i st).progress.failed_queries.lookup query
            = some ((st.progress.failed_queries.lookup query).getD 0 + 1)))
    ∧ ∀ (progress0 : DiscoveryProgress),
        (discover_channels dOracle queries progress0).attemptedIndices.Nodup := by
  constructor
  · intro i st query hq hnc
    constructor
    · intro hd
      unfold discoveryStep
      rw [hq]
      simp only [hnc, Bool.false_eq_true, if_false, hd, if_true]
    · intro hd
      unfold discoveryStep
      rw [hq]
      simp only [hnc, hd, Bool.false_eq_true, if_false]
      exact ⟨trivial, lookup_countIncr_self _ _⟩
  · intro progress0
    have h := attempted_sublist dOracle queries
      (queries.length - progress0.current_query_index)
      progress0.current_query_index
      { progress := progress0, attemptedIndices := [] }
    simp only [List.nil_append] at h
    exact List.Nodup.sublist h (List.nodup_range' _ _)

/-- Witness for C6 (amended): a successful query at index 0 advances the
cursor to 1, and a full run has duplicate-free attempted indices. -/
theorem c6_amended_witness :
    (discoveryStep (fun _ => true) ["q1"] 0 c6wState).progress.current_query_index = 1
    ∧ (discover_channels (fun _ => true) ["q1"]
        c6wState.progress).attemptedIndices.Nodup :=
  ⟨((c6_amended (fun _ => true) ["q1"]).1 0 c6wState "q1" rfl rfl).1 rfl,
   (c6_amended (fun _ => true) ["q1"]).2 c6wState.progress⟩

/-! ### Below-cursor accounting (C8) -/

theorem is_channel_completed_eq (id : String) (p : Progress) (artifacts : String → Bool) :
    is_channel_completed id p artifacts
      = (p.completed_channels.contains id || artifacts id) := rfl

theorem contains_append_of (l l' : List String) (x : String) (h : l.contains x = true) :
    (l ++ l').contains x = true := by
  have hm : x ∈ l := by simpa using h
  simpa using List.mem_append_left l' hm

theorem contains_append_self (l : List String) (x : String) :
    (l ++ [x]).contains x = true := by
  simpa using List.mem_append_right l (List.mem_singleton.mpr rfl)

theorem completed_or_artifacts_mono (id : String) (l l' : List String)
    (artifacts : String → Bool) (h : (l.contains id || artifacts id) = true) :
    ((l ++ l').contains id || artifacts id) = true := by
  rw [Bool.or_eq_true] at h ⊢
  rcases h with h | h
  · exact Or.inl (contains_append_of l l' id h)
  · exact Or.inr h

theorem lookup_record_isSome (qf pf : List (String × FailureRecord)) (ch msg id : String)
    (h : (qf.lookup id).isSome = true) :
    ((record_channel_failure qf pf ch msg).1.lookup id).isSome = true := by
  unfold record_channel_failure
  exact lookup_dictSet_isSome _ _ _ _ h

theorem handleOutcome_completed (i : Nat) (ch : String) (st : ScrapeState)
    (o : ScrapeOutcome) :
    (handleOutcome i ch st o).state.queue.completed = st.queue.completed
    ∨ (handleOutcome i ch st o).state.queue.completed = st.queue.completed ++ [ch] := by
  cases o with
  | success => right; rfl
  | skippedExisting msg => left; rfl
  | notFound msg => left; rfl
  | rateLimited msg => left; rfl
  | transient msg =>
    left
    simp only [handleOutcome]
    split <;> rfl

theorem handleOutcome_progress_completed (i : Nat) (ch : String) (st : ScrapeState)
    (o : ScrapeOutcome) :
    (handleOutcome i ch st o).state.progress.completed_channels
        = st.progress.completed_channels
    ∨ (handleOutcome i ch st o).state.progress.completed_channels
        = st.progress.completed_channels ++ [ch] := by
  cases o with
  | success => right; rfl
  | skippedExisting msg => left; rfl
  | notFound msg => left; rfl
  | rateLimited msg => left; rfl
  | transient msg =>
    left
    simp only [handleOutcome]
    split <;> rfl

theorem handleOutcome_skipped_ids (i : Nat) (ch : String) (st : ScrapeState)
    (o : ScrapeOutcome) :
    (handleOutcome i ch st o).state.skippedExceptionIds = st.skippedExceptionIds
    ∨ (handleOutcome i ch st o).state.skippedExceptionIds
        = st.skippedExceptionIds ++ [ch] := by
  cases o with
  | success => left; rfl
  | skippedExisting msg => right; rfl
  | notFound msg => left; rfl
  | rateLimited msg => left; rfl
  | transient msg =>
    left
    simp only [handleOutcome]
    split <;> rfl

theorem handleOutcome_failed_pres (i : Nat) (ch : String) (st : ScrapeState)
    (o : ScrapeOutcome) (id : String)
    (h : (st.queue.failed.lookup id).isSome = true) :
    ((handleOutcome i ch st o).state.queue.failed.lookup id).isSome = true
    ∨ (handleOutcome i ch st o).state.queue.completed.contains id = true := by
  cases o with
  | success =>
    by_cases hik : id = ch
    · right
      subst hik
      exact contains_append_self st.queue.completed id
    · left
      show ((dictErase st.queue.failed ch).lookup id).isSome = true
      rw [lookup_dictErase_ne st.queue.failed ch id hik]
      exact h
  | skippedExisting msg => left; exact h
  | notFound msg =>
    left
    exact lookup_record_isSome st.queue.failed st.progress.failed_channels ch msg id h
  | rateLimited msg =>
    left
    exact lookup_record_isSome st.queue.failed st.progress.failed_channels ch msg id h
  | transient msg =>
    left
    simp only [handleOutcome]
    split <;>
      exact lookup_record_isSome st.queue.failed st.progress.failed_channels ch msg id h

theorem stepEntity_preserves_accounted (config : Config) (oracle : Nat → ScrapeOutcome)
    (artifacts : String → Bool) (i j : Nat) (st : ScrapeState)
    (h : accounted st artifacts j) :
    accounted (stepEntity config oracle artifacts i st).state artifacts j := by
  intro id hid
  rw [stepEntity_channels] at hid
  have hacc := h id hid
  cases hch : st.queue.channels.get? i with
  | none =>
    rw [stepEntity_none config oracle artifacts i st hch]
    exact hacc
  | some channel_id =>
    by_cases hc : is_channel_completed channel_id st.progress artifacts = true
    · rw [stepEntity_skip_completed config oracle artifacts i st channel_id hch hc]
      exact hacc
    · have hc' : is_channel_completed channel_id st.progress artifacts = false := by
        simpa using hc
      by_cases hat : config.max_channel_retries ≤ attemptsOf st.queue.failed channel_id
      · rw [stepEntity_skip_budget config oracle artifacts i st channel_id hch hc' hat]
        exact hacc
      · rw [stepEntity_scrape config oracle artifacts i st channel_id hch hc'
          (Nat.lt_of_not_le hat)]
        rcases hacc with hA | hA | hA | hA
        · rcases handleOutcome_completed i channel_id (preScrape config st) (oracle i)
            with he | he
          · left
            rw [he, preScrape_queue]
            exact hA
          · left
            rw [he, preScrape_queue]
            exact contains_append_of _ _ _ hA
        · have hA' : ((preScrape config st).queue.failed.lookup id).isSome = true := by
            rw [preScrape_queue]
            exact hA
          rcases handleOutcome_failed_pres i channel_id (preScrape config st) (oracle i)
            id hA' with he | he
          · right; left
            exact he
          · left
            exact he
        · right; right; left
          rw [is_channel_completed_eq] at hA ⊢
          rcases handleOutcome_progress_completed i channel_id (preScrape config st)
            (oracle i) with he | he
          · rw [he, preScrape_progress]
            exact hA
          · rw [he, preScrape_progress]
            exact completed_or_artifacts_mono id _ _ artifacts hA
        · right; right; right
          rcases handleOutcome_skipped_ids i channel_id (preScrape config st) (oracle i)
            with he | he
          · rw [he, preScrape_skipped_ids]
            exact hA
          · rw [he, preScrape_skipped_ids]
            exact contains_append_of _ _ _ hA

theorem stepEntity_accounts_current (config : Config) (oracle : Nat → ScrapeOutcome)
    (artifacts : String → Bool) (i : Nat) (st : ScrapeState)
    (hretry : 1 ≤ config.max_channel_retries) :
    accounted (stepEntity config oracle artifacts i st).state artifacts i := by
  intro id hid
  rw [stepEntity_channels] at hid
  cases hch : st.queue.channels.get? i with
  | none =>
    rw [hch] at hid
    exact absurd hid (by simp)
  | some channel_id =>
    have hide : id = channel_id := by
      rw [hch] at hid
      exact (Option.some_inj.mp hid).symm
    subst hide
    by_cases hc : is_channel_completed id st.progress artifacts = true
    · rw [stepEntity_skip_completed config oracle artifacts i st id hch hc]
      right; right; left
      exact hc
    · have hc' : is_channel_completed id st.progress artifacts = false := by
        simpa using hc
      by_cases hat : config.max_channel_retries ≤ attemptsOf st.queue.failed id
      · rw [stepEntity_skip_budget config oracle artifacts i st id hch hc' hat]
        right; left
        exact attemptsOf_pos_isSome st.queue.failed id (by omega)
      · rw [stepEntity_scrape config oracle artifacts i st id hch hc'
          (Nat.lt_of_not_le hat)]
        cases ho : oracle i with
        | success =>
          left
          have he : (handleOutcome i id (preScrape config st)
              ScrapeOutcome.success).state.queue.completed
                = (preScrape config st).queue.completed ++ [id] := rfl
          rw [he, preScrape_queue]
          exact contains_append_self _ _
        | skippedExisting msg =>
          right; right; right
          show ((preScrape config st).skippedExceptionIds ++ [id]).contains id = true
          exact contains_append_self _ _
        | notFound msg =>
          right; left
          show ((record_channel_failure (preScrape config st).queue.failed
            (preScrape config st).progress.failed_channels id msg).1.lookup id).isSome
              = true
          rw [lookup_record_self]
          rfl
        | rateLimited msg =>
          right; left
          show ((record_channel_failure (preScrape config st).queue.failed
            (preScrape config st).progress.failed_channels id msg).1.lookup id).isSome
              = true
          rw [lookup_record_self]
          rfl
        | transient msg =>
          right; left
          simp only [handleOutcome]
          split <;>
            · show ((record_channel_failure (preScrape config st).queue.failed
                (preScrape config st).progress.failed_channels id msg).1.lookup
                  id).isSome = true
              rw [lookup_record_self]
              rfl

theorem runSteps_accounted (config : Config) (oracle : Nat → ScrapeOutcome)
    (artifacts : String → Bool) (hretry : 1 ≤ config.max_channel_retries) :
    ∀ k s (st : ScrapeState),
      st.queue.current_index ≤ s →
      (∀ j, j < s → accounted st artifacts j) →
      ∀ j, j < s + k →
        accounted (runSteps config oracle artifacts s k st) artifacts j := by
  intro k
  induction k with
  | zero =>
    intro s st hci hacc j hj
    rw [runSteps_zero]
    exact hacc j (by omega)
  | succ k ih =>
    intro s st hci hacc j hj
    rw [runSteps_succ]
    have hci' : (stepEntity config oracle artifacts s st).state.queue.current_index
        ≤ s + 1 := by
      rcases stepEntity_ci config oracle artifacts s st with h' | h' <;> omega
    have hacc' : ∀ j', j' < s + 1 →
        accounted (stepEntity config oracle artifacts s st).state artifacts j' := by
      intro j' hj'
      rcases Nat.lt_succ_iff_lt_or_eq.mp hj' with h' | h'
      · exact stepEntity_preserves_accounted config oracle artifacts s j' st (hacc j' h')
      · subst h'
        exact stepEntity_accounts_current config oracle artifacts j' st hretry
    exact ih (s + 1) (stepEntity config oracle artifacts s st).state hci' hacc' j
      (by omega)

/-- C8 (amended): assuming the retry budget is at least 1 and the accounting
invariant holds for the initially loaded documents, then in every queue state
reachable during a scraping run, every identifier at a position strictly below
`current_index` is in the queue's completed list, or a key of its failed map,
or already completed externally (global progress / existing artifact), or was
skipped via `ChannelSkippedException`. -/
theorem c8_amended (config : Config) (oracle : Nat → ScrapeOutcome)
    (artifacts : String → Bool) (queue_data : QueueData) (progress : Progress) (k : Nat)
    (hretry : 1 ≤ config.max_channel_retries)
    (hinit : ∀ j, j < queue_data.current_index →
      accounted (initialScrapeState queue_data progress) artifacts j) :
    ∀ j, j < (scrapeStateAfter config oracle artifacts queue_data progress
        k).queue.current_index →
      accounted (scrapeStateAfter config oracle artifacts queue_data progress k)
        artifacts j := by
  intro j hj
  unfold scrapeStateAfter at hj ⊢
  have hb := runSteps_ci_bounds config oracle artifacts
    (min k (queue_data.channels.length - queue_data.current_index))
    queue_data.current_index (initialScrapeState queue_data progress) (Nat.le_refl _)
  exact runSteps_accounted config oracle artifacts hretry
    (min k (queue_data.channels.length - queue_data.current_index))
    queue_data.current_index (initialScrapeState queue_data progress) (Nat.le_refl _)
    hinit j (by omega)

/-- Witness for C8 (amended): the three-channel Success/NotFound/RateLimited
scenario after its full pass, at position 0. -/
theorem c8_amended_witness :
    1 ≤ defaultConfig.max_channel_retries
    ∧ accounted (scrapeStateAfter defaultConfig c8wOracle (fun _ => false) c8wQueue
        { completed_channels := [], failed_channels := [] } 3) (fun _ => false) 0 :=
  ⟨by decide,
    c8_amended defaultConfig c8wOracle (fun _ => false) c8wQueue
      { completed_channels := [], failed_channels := [] } 3 (by decide)
      (fun j hj => absurd hj (by simp [c8wQueue])) 0 (by decide)⟩

end YoutubeScrapper
